import Mathlib

/-!
Shallow embedding of `src/types/activity.rs` from the
`discord-rich-presence` repository, together with its serde-derived
rendering to a JSON-like wire structure, and proofs of the spec's claims
about it.

Naming: Rust allows a field and a builder method to share a name
(e.g. `Activity.state`); Lean does not, so the builder methods are
embedded as `setState`, `setDetails`, etc., while the fields keep the
source names.  `Timestamps.end` and `Secrets.match` keep their source
names via guillemets since `end` and `match` are Lean keywords.
-/

/-- The wire structure produced by serde's JSON serialization: the
rendered value an `Activity` is turned into. -/
inductive Json where
  | str : String → Json
  | int : Int → Json
  | arr : List Json → Json
  | obj : List (String × Json) → Json

/-- The keys of a rendered JSON object (empty for non-objects). -/
def keys : Json → List String
  | .obj fs => fs.map Prod.fst
  | _ => []

/-- The field list of a rendered JSON object (empty for non-objects). -/
def objFields : Json → List (String × Json)
  | .obj fs => fs
  | _ => []

/-- `Button` struct: label and url, both required (activity.rs lines 245-251). -/
structure Button where
  label : String
  url : String

/-- `Button::new` (activity.rs lines 259-261). -/
def Button.new (label : String) (url : String) : Button :=
  { label := label, url := url }

/-- `ActivityType` enum (activity.rs lines 265-276). -/
inductive ActivityType where
  | Playing
  | Listening
  | Watching
  | Competing

/-- The `#[repr(u8)]` discriminants assigned in the source:
`Playing = 0`, `Listening = 2`, `Watching = 3`, `Competing = 5`. -/
def ActivityType.code : ActivityType → Nat
  | .Playing => 0
  | .Listening => 2
  | .Watching => 3
  | .Competing => 5

/-- `Serialize_repr` renders an `ActivityType` as its numeric discriminant. -/
def renderActivityType (t : ActivityType) : Json :=
  Json.int t.code

/-- `Timestamps` struct (activity.rs lines 97-104); `i64` modelled as `Int`. -/
structure Timestamps where
  start : Option Int
  «end» : Option Int

/-- `Timestamps::new` = `Default::default()`: all fields `None`. -/
def Timestamps.new : Timestamps :=
  { start := none, «end» := none }

/-- `Timestamps::start` builder method. -/
def Timestamps.setStart (t : Timestamps) (start : Int) : Timestamps :=
  { t with start := some start }

/-- `Timestamps::end` builder method. -/
def Timestamps.setEnd (t : Timestamps) (e : Int) : Timestamps :=
  { t with «end» := some e }

/-- `Party` struct (activity.rs lines 128-134); `(i32, i32)` modelled as `Int × Int`. -/
structure Party where
  id : Option String
  size : Option (Int × Int)

/-- `Party::new` = `Default::default()`: all fields `None`. -/
def Party.new : Party :=
  { id := none, size := none }

/-- `Party::id` builder method. -/
def Party.setId (p : Party) (id : String) : Party :=
  { p with id := some id }

/-- `Party::size` builder method (activity.rs lines 148-151):
stores the pair `(current_size, max_size)` in that order. -/
def Party.setSize (p : Party) (current_size : Int) (max_size : Int) : Party :=
  { p with size := some (current_size, max_size) }

/-- `Assets` struct (activity.rs lines 160-170). -/
structure Assets where
  large_image : Option String
  large_text : Option String
  small_image : Option String
  small_text : Option String

/-- `Assets::new` = `Default::default()`: all fields `None`. -/
def Assets.new : Assets :=
  { large_image := none, large_text := none, small_image := none, small_text := none }

/-- `Assets::large_image` builder method. -/
def Assets.setLargeImage (a : Assets) (large_image : String) : Assets :=
  { a with large_image := some large_image }

/-- `Assets::large_text` builder method. -/
def Assets.setLargeText (a : Assets) (large_text : String) : Assets :=
  { a with large_text := some large_text }

/-- `Assets::small_image` builder method. -/
def Assets.setSmallImage (a : Assets) (small_image : String) : Assets :=
  { a with small_image := some small_image }

/-- `Assets::small_text` builder method. -/
def Assets.setSmallText (a : Assets) (small_text : String) : Assets :=
  { a with small_text := some small_text }

/-- `Secrets` struct (activity.rs lines 206-214). -/
structure Secrets where
  join : Option String
  spectate : Option String
  «match» : Option String

/-- `Secrets::new` = `Default::default()`: all fields `None`. -/
def Secrets.new : Secrets :=
  { join := none, spectate := none, «match» := none }

/-- `Secrets::join` builder method. -/
def Secrets.setJoin (s : Secrets) (join : String) : Secrets :=
  { s with join := some join }

/-- `Secrets::spectate` builder method. -/
def Secrets.setSpectate (s : Secrets) (spectate : String) : Secrets :=
  { s with spectate := some spectate }

/-- `Secrets::match` builder method. -/
def Secrets.setMatch (s : Secrets) (m : String) : Secrets :=
  { s with «match» := some m }

/-- `Activity` struct (activity.rs lines 10-30): all fields optional,
declared in the source order. -/
structure Activity where
  state : Option String
  details : Option String
  timestamps : Option Timestamps
  party : Option Party
  assets : Option Assets
  secrets : Option Secrets
  buttons : Option (List Button)
  activity_type : Option ActivityType

/-- `Activity::new` = `Default::default()`: every field `None`. -/
def Activity.new : Activity :=
  { state := none, details := none, timestamps := none, party := none,
    assets := none, secrets := none, buttons := none, activity_type := none }

/-- `Activity::state` builder method (activity.rs lines 38-41). -/
def Activity.setState (a : Activity) (state : String) : Activity :=
  { a with state := some state }

/-- `Activity::details` builder method (activity.rs lines 44-47). -/
def Activity.setDetails (a : Activity) (details : String) : Activity :=
  { a with details := some details }

/-- `Activity::timestamps` builder method (activity.rs lines 50-53). -/
def Activity.setTimestamps (a : Activity) (timestamps : Timestamps) : Activity :=
  { a with timestamps := some timestamps }

/-- `Activity::party` builder method (activity.rs lines 56-59). -/
def Activity.setParty (a : Activity) (party : Party) : Activity :=
  { a with party := some party }

/-- `Activity::assets` builder method (activity.rs lines 62-65). -/
def Activity.setAssets (a : Activity) (assets : Assets) : Activity :=
  { a with assets := some assets }

/-- `Activity::secrets` builder method (activity.rs lines 68-71). -/
def Activity.setSecrets (a : Activity) (secrets : Secrets) : Activity :=
  { a with secrets := some secrets }

/-- `Activity::buttons` builder method (activity.rs lines 76-85):
returns `self` unchanged when the input vector is empty, otherwise
stores the vector verbatim. -/
def Activity.setButtons (a : Activity) (buttons : List Button) : Activity :=
  if buttons.isEmpty then a
  else { a with buttons := some buttons }

/-- `Activity::activity_type` builder method (activity.rs lines 88-91). -/
def Activity.setActivityType (a : Activity) (activity_type : ActivityType) : Activity :=
  { a with activity_type := some activity_type }

/-- One optional struct field as serde renders it under
`#[serde_with::skip_serializing_none]`: absent fields contribute
nothing, present fields contribute one key/value pair. -/
def optField {α : Type} (name : String) (f : α → Json) : Option α → List (String × Json)
  | none => []
  | some x => [(name, f x)]

/-- serde rendering of `Button`: both fields always present. -/
def renderButton (b : Button) : Json :=
  Json.obj [("label", Json.str b.label), ("url", Json.str b.url)]

/-- serde rendering of `Timestamps`: optional fields omitted when unset. -/
def renderTimestamps (t : Timestamps) : Json :=
  Json.obj (optField "start" Json.int t.start ++ optField "end" Json.int t.«end»)

/-- serde rendering of `Party`: the `(i32, i32)` size pair renders as a
two-element array, current size first. -/
def renderParty (p : Party) : Json :=
  Json.obj (optField "id" Json.str p.id ++
    optField "size" (fun s => Json.arr [Json.int s.1, Json.int s.2]) p.size)

/-- serde rendering of `Assets`: optional fields omitted when unset. -/
def renderAssets (a : Assets) : Json :=
  Json.obj (optField "large_image" Json.str a.large_image ++
    optField "large_text" Json.str a.large_text ++
    optField "small_image" Json.str a.small_image ++
    optField "small_text" Json.str a.small_text)

/-- serde rendering of `Secrets`: optional fields omitted when unset. -/
def renderSecrets (s : Secrets) : Json :=
  Json.obj (optField "join" Json.str s.join ++
    optField "spectate" Json.str s.spectate ++
    optField "match" Json.str s.«match»)

/-- serde rendering of `Activity`: fields in declaration order, unset
fields omitted, `activity_type` renamed to `"type"` by
`#[serde(rename = "type")]`. -/
def renderActivity (a : Activity) : Json :=
  Json.obj (optField "state" Json.str a.state ++
    optField "details" Json.str a.details ++
    optField "timestamps" renderTimestamps a.timestamps ++
    optField "party" renderParty a.party ++
    optField "assets" renderAssets a.assets ++
    optField "secrets" renderSecrets a.secrets ++
    optField "buttons" (fun bs => Json.arr (bs.map renderButton)) a.buttons ++
    optField "type" renderActivityType a.activity_type)

/-- The `Activity` values reachable from `Activity::new` by any sequence
of the public builder methods. -/
inductive Reachable : Activity → Prop where
  | new : Reachable Activity.new
  | state {a s} : Reachable a → Reachable (a.setState s)
  | details {a d} : Reachable a → Reachable (a.setDetails d)
  | timestamps {a t} : Reachable a → Reachable (a.setTimestamps t)
  | party {a p} : Reachable a → Reachable (a.setParty p)
  | assets {a x} : Reachable a → Reachable (a.setAssets x)
  | secrets {a s} : Reachable a → Reachable (a.setSecrets s)
  | buttons {a bs} : Reachable a → Reachable (a.setButtons bs)
  | activity_type {a t} : Reachable a → Reachable (a.setActivityType t)

/-- A sample button used as a concrete input in witnesses and counterexamples. -/
def sampleButton : Button :=
  Button.new "Click" "https://example.com"

/-- A concrete activity whose `buttons` field is present. -/
def activityWithButton : Activity :=
  Activity.new.setButtons [sampleButton]

/-- Membership of a key in the keys contributed by one optional field. -/
lemma mem_keys_optField {α : Type} (n : String) (f : α → Json) (o : Option α) (s : String) :
    s ∈ (optField n f o).map Prod.fst ↔ s = n ∧ o.isSome := by
  cases o <;> simp [optField]

/-- Membership of a key in one optional field, in the existential shape
produced by simp's map/membership normal form. -/
lemma exists_mem_optField {α : Type} (n : String) (f : α → Json) (o : Option α) (s : String) :
    (∃ x, (s, x) ∈ optField n f o) ↔ s = n ∧ o.isSome := by
  cases o <;> simp [optField]

/-- The keys of a rendered `Activity` are exactly the names of its set fields. -/
lemma mem_keys_renderActivity (a : Activity) (s : String) :
    s ∈ keys (renderActivity a) ↔
      (s = "state" ∧ a.state.isSome) ∨ (s = "details" ∧ a.details.isSome) ∨
      (s = "timestamps" ∧ a.timestamps.isSome) ∨ (s = "party" ∧ a.party.isSome) ∨
      (s = "assets" ∧ a.assets.isSome) ∨ (s = "secrets" ∧ a.secrets.isSome) ∨
      (s = "buttons" ∧ a.buttons.isSome) ∨ (s = "type" ∧ a.activity_type.isSome) := by
  simp [renderActivity, keys, List.mem_append, mem_keys_optField, exists_mem_optField]

/-- The keys of a rendered `Timestamps` are exactly the names of its set fields. -/
lemma mem_keys_renderTimestamps (t : Timestamps) (s : String) :
    s ∈ keys (renderTimestamps t) ↔
      (s = "start" ∧ t.start.isSome) ∨ (s = "end" ∧ t.«end».isSome) := by
  simp [renderTimestamps, keys, List.mem_append, mem_keys_optField, exists_mem_optField]

/-- The keys of a rendered `Party` are exactly the names of its set fields. -/
lemma mem_keys_renderParty (p : Party) (s : String) :
    s ∈ keys (renderParty p) ↔
      (s = "id" ∧ p.id.isSome) ∨ (s = "size" ∧ p.size.isSome) := by
  simp [renderParty, keys, List.mem_append, mem_keys_optField, exists_mem_optField]

/-- The keys of a rendered `Assets` are exactly the names of its set fields. -/
lemma mem_keys_renderAssets (x : Assets) (s : String) :
    s ∈ keys (renderAssets x) ↔
      (s = "large_image" ∧ x.large_image.isSome) ∨ (s = "large_text" ∧ x.large_text.isSome) ∨
      (s = "small_image" ∧ x.small_image.isSome) ∨ (s = "small_text" ∧ x.small_text.isSome) := by
  simp [renderAssets, keys, List.mem_append, mem_keys_optField, exists_mem_optField]

/-- The keys of a rendered `Secrets` are exactly the names of its set fields. -/
lemma mem_keys_renderSecrets (x : Secrets) (s : String) :
    s ∈ keys (renderSecrets x) ↔
      (s = "join" ∧ x.join.isSome) ∨ (s = "spectate" ∧ x.spectate.isSome) ∨
      (s = "match" ∧ x.«match».isSome) := by
  simp [renderSecrets, keys, List.mem_append, mem_keys_optField, exists_mem_optField]

/-- C1 counterexample: on an activity whose `buttons` field is already
present, `buttons([])` does NOT leave/reset the field to absent — the
code returns `self` unchanged, so the previously stored buttons stay. -/
theorem emptyButtonsAbsent_counterexample :
    ¬ (∀ a : Activity,
        renderActivity (a.setButtons []) = renderActivity a ∧
        (a.setButtons []).buttons = none) := by
  intro h
  have h2 := (h activityWithButton).2
  simp [activityWithButton, Activity.setButtons, Activity.new] at h2

/-- C1 (amended): `buttons([])` returns the activity unchanged, so its
rendered structure is identical to the input's; the `buttons` field is
exactly what it was before (in particular it is never set to an empty
sequence, and if it was absent it stays absent). -/
theorem emptyButtonsNoOp (a : Activity) :
    a.setButtons [] = a ∧
    renderActivity (a.setButtons []) = renderActivity a ∧
    (a.setButtons []).buttons = a.buttons :=
  ⟨rfl, rfl, rfl⟩

/-- C2 counterexample: the builder does not enforce the 2-button
maximum — a reachable activity holding three buttons exists. -/
theorem buttonsInvariant_counterexample :
    ¬ (∀ a : Activity, Reachable a →
        ∀ bs, a.buttons = some bs → bs ≠ [] ∧ bs.length ≤ 2) := by
  intro h
  have h3 := h (Activity.new.setButtons [sampleButton, sampleButton, sampleButton])
    (Reachable.buttons Reachable.new)
    [sampleButton, sampleButton, sampleButton] rfl
  exact absurd h3.2 (by decide)

/-- C2 (amended): on every activity reachable from `Activity::new` by
builder calls, a present `buttons` field is non-empty (the setter skips
empty input); the 2-element bound is not enforced by the code. -/
theorem buttonsInvariant (a : Activity) (h : Reachable a) :
    ∀ bs, a.buttons = some bs → bs ≠ [] := by
  induction h with
  | new => simp [Activity.new]
  | state _ ih => exact ih
  | details _ ih => exact ih
  | timestamps _ ih => exact ih
  | party _ ih => exact ih
  | assets _ ih => exact ih
  | secrets _ ih => exact ih
  | activity_type _ ih => exact ih
  | buttons _ ih =>
    intro cs hcs
    unfold Activity.setButtons at hcs
    split at hcs
    · exact ih cs hcs
    next hne =>
      have hbc := Option.some.inj hcs
      subst hbc
      intro hnil
      subst hnil
      exact hne rfl

/-- Witness for `buttonsInvariant` at a concrete reachable activity. -/
theorem buttonsInvariant_witness : ([sampleButton] : List Button) ≠ [] :=
  buttonsInvariant activityWithButton (Reachable.buttons Reachable.new) [sampleButton] rfl

/-- C10: on an activity whose `buttons` field is present, `buttons([])`
returns the value completely unchanged and the stored buttons remain. -/
theorem emptyButtonsKeepsExisting (a : Activity) (bs : List Button)
    (h : a.buttons = some bs) :
    a.setButtons [] = a ∧ (a.setButtons []).buttons = some bs :=
  ⟨rfl, h⟩

/-- Witness for `emptyButtonsKeepsExisting` at a concrete activity. -/
theorem emptyButtonsKeepsExisting_witness :
    activityWithButton.setButtons [] = activityWithButton ∧
    (activityWithButton.setButtons []).buttons = some [sampleButton] :=
  emptyButtonsKeepsExisting activityWithButton [sampleButton] rfl

/-- C3: every unset optional field of every type in the graph is omitted
entirely from the rendered structure (its key does not appear at all),
and a freshly constructed `Activity` renders as an object with zero
fields. -/
theorem unsetFieldsOmitted :
    renderActivity Activity.new = Json.obj [] ∧
    (∀ a : Activity,
      (a.state = none → "state" ∉ keys (renderActivity a)) ∧
      (a.details = none → "details" ∉ keys (renderActivity a)) ∧
      (a.timestamps = none → "timestamps" ∉ keys (renderActivity a)) ∧
      (a.party = none → "party" ∉ keys (renderActivity a)) ∧
      (a.assets = none → "assets" ∉ keys (renderActivity a)) ∧
      (a.secrets = none → "secrets" ∉ keys (renderActivity a)) ∧
      (a.buttons = none → "buttons" ∉ keys (renderActivity a)) ∧
      (a.activity_type = none → "type" ∉ keys (renderActivity a))) ∧
    (∀ t : Timestamps,
      (t.start = none → "start" ∉ keys (renderTimestamps t)) ∧
      (t.«end» = none → "end" ∉ keys (renderTimestamps t))) ∧
    (∀ p : Party,
      (p.id = none → "id" ∉ keys (renderParty p)) ∧
      (p.size = none → "size" ∉ keys (renderParty p))) ∧
    (∀ x : Assets,
      (x.large_image = none → "large_image" ∉ keys (renderAssets x)) ∧
      (x.large_text = none → "large_text" ∉ keys (renderAssets x)) ∧
      (x.small_image = none → "small_image" ∉ keys (renderAssets x)) ∧
      (x.small_text = none → "small_text" ∉ keys (renderAssets x))) ∧
    (∀ x : Secrets,
      (x.join = none → "join" ∉ keys (renderSecrets x)) ∧
      (x.spectate = none → "spectate" ∉ keys (renderSecrets x)) ∧
      (x.«match» = none → "match" ∉ keys (renderSecrets x))) := by
  refine ⟨rfl, fun a => ?_, fun t => ?_, fun p => ?_, fun x => ?_, fun x => ?_⟩
  · refine ⟨?_, ?_, ?_, ?_, ?_, ?_, ?_, ?_⟩ <;> intro h <;>
      simp [mem_keys_renderActivity, h]
  · refine ⟨?_, ?_⟩ <;> intro h <;> simp [mem_keys_renderTimestamps, h]
  · refine ⟨?_, ?_⟩ <;> intro h <;> simp [mem_keys_renderParty, h]
  · refine ⟨?_, ?_, ?_, ?_⟩ <;> intro h <;> simp [mem_keys_renderAssets, h]
  · refine ⟨?_, ?_, ?_⟩ <;> intro h <;> simp [mem_keys_renderSecrets, h]

/-- Witness for `unsetFieldsOmitted` at a concrete activity. -/
theorem unsetFieldsOmitted_witness :
    "state" ∉ keys (renderActivity Activity.new) :=
  (unsetFieldsOmitted.2.1 Activity.new).1 rfl

/-- C4: each `ActivityType` variant renders as exactly its fixed numeric
code (Playing 0, Listening 2, Watching 3, Competing 5); no variant ever
renders as code 1 or 4, nor as a string (variant name), and the emitted
code is always one of 0, 2, 3, 5 — never a 0..3 table index. -/
theorem activityTypeCodes :
    renderActivityType ActivityType.Playing = Json.int 0 ∧
    renderActivityType ActivityType.Listening = Json.int 2 ∧
    renderActivityType ActivityType.Watching = Json.int 3 ∧
    renderActivityType ActivityType.Competing = Json.int 5 ∧
    (∀ t : ActivityType,
      renderActivityType t ≠ Json.int 1 ∧
      renderActivityType t ≠ Json.int 4 ∧
      (∀ s : String, renderActivityType t ≠ Json.str s) ∧
      ∃ n : Nat, renderActivityType t = Json.int n ∧
        (n = 0 ∨ n = 2 ∨ n = 3 ∨ n = 5)) := by
  refine ⟨rfl, rfl, rfl, rfl, fun t => ?_⟩
  cases t
  · exact ⟨by simp [renderActivityType, ActivityType.code],
      by simp [renderActivityType, ActivityType.code],
      fun s => by simp [renderActivityType], 0, rfl, by decide⟩
  · exact ⟨by simp [renderActivityType, ActivityType.code],
      by simp [renderActivityType, ActivityType.code],
      fun s => by simp [renderActivityType], 2, rfl, by decide⟩
  · exact ⟨by simp [renderActivityType, ActivityType.code],
      by simp [renderActivityType, ActivityType.code],
      fun s => by simp [renderActivityType], 3, rfl, by decide⟩
  · exact ⟨by simp [renderActivityType, ActivityType.code],
      by simp [renderActivityType, ActivityType.code],
      fun s => by simp [renderActivityType], 5, rfl, by decide⟩

/-- Witness for `activityTypeCodes` at a concrete variant. -/
theorem activityTypeCodes_witness :
    renderActivityType ActivityType.Playing ≠ Json.int 1 :=
  (activityTypeCodes.2.2.2.2 ActivityType.Playing).1

/-- C5: a set `activity_type` is emitted under the renamed key `"type"`
(the source key `"activity_type"` never appears), and every other set
field of every type in the graph is emitted under its own field name
with its rendered value. -/
theorem renderKeyNames :
    (∀ a : Activity,
      (∀ t, a.activity_type = some t →
        ("type", renderActivityType t) ∈ objFields (renderActivity a)) ∧
      "activity_type" ∉ keys (renderActivity a) ∧
      (∀ s, a.state = some s → ("state", Json.str s) ∈ objFields (renderActivity a)) ∧
      (∀ d, a.details = some d → ("details", Json.str d) ∈ objFields (renderActivity a)) ∧
      (∀ t, a.timestamps = some t →
        ("timestamps", renderTimestamps t) ∈ objFields (renderActivity a)) ∧
      (∀ p, a.party = some p → ("party", renderParty p) ∈ objFields (renderActivity a)) ∧
      (∀ x, a.assets = some x → ("assets", renderAssets x) ∈ objFields (renderActivity a)) ∧
      (∀ x, a.secrets = some x → ("secrets", renderSecrets x) ∈ objFields (renderActivity a)) ∧
      (∀ bs, a.buttons = some bs →
        ("buttons", Json.arr (bs.map renderButton)) ∈ objFields (renderActivity a))) ∧
    (∀ t : Timestamps,
      (∀ n, t.start = some n → ("start", Json.int n) ∈ objFields (renderTimestamps t)) ∧
      (∀ n, t.«end» = some n → ("end", Json.int n) ∈ objFields (renderTimestamps t))) ∧
    (∀ p : Party,
      (∀ s, p.id = some s → ("id", Json.str s) ∈ objFields (renderParty p)) ∧
      (∀ c m, p.size = some (c, m) →
        ("size", Json.arr [Json.int c, Json.int m]) ∈ objFields (renderParty p))) ∧
    (∀ x : Assets,
      (∀ s, x.large_image = some s →
        ("large_image", Json.str s) ∈ objFields (renderAssets x)) ∧
      (∀ s, x.large_text = some s →
        ("large_text", Json.str s) ∈ objFields (renderAssets x)) ∧
      (∀ s, x.small_image = some s →
        ("small_image", Json.str s) ∈ objFields (renderAssets x)) ∧
      (∀ s, x.small_text = some s →
        ("small_text", Json.str s) ∈ objFields (renderAssets x))) ∧
    (∀ x : Secrets,
      (∀ s, x.join = some s → ("join", Json.str s) ∈ objFields (renderSecrets x)) ∧
      (∀ s, x.spectate = some s → ("spectate", Json.str s) ∈ objFields (renderSecrets x)) ∧
      (∀ s, x.«match» = some s → ("match", Json.str s) ∈ objFields (renderSecrets x))) ∧
    (∀ b : Button,
      renderButton b = Json.obj [("label", Json.str b.label), ("url", Json.str b.url)]) := by
  refine ⟨fun a => ?_, fun t => ?_, fun p => ?_, fun x => ?_, fun x => ?_, fun b => rfl⟩
  · refine ⟨fun t h => ?_, by simp [mem_keys_renderActivity], fun s h => ?_, fun d h => ?_,
      fun t h => ?_, fun p h => ?_, fun x h => ?_, fun x h => ?_, fun bs h => ?_⟩ <;>
      simp [renderActivity, objFields, optField, h, List.mem_append]
  · refine ⟨fun n h => ?_, fun n h => ?_⟩ <;>
      simp [renderTimestamps, objFields, optField, h, List.mem_append]
  · refine ⟨fun s h => ?_, fun c m h => ?_⟩ <;>
      simp [renderParty, objFields, optField, h, List.mem_append]
  · refine ⟨fun s h => ?_, fun s h => ?_, fun s h => ?_, fun s h => ?_⟩ <;>
      simp [renderAssets, objFields, optField, h, List.mem_append]
  · refine ⟨fun s h => ?_, fun s h => ?_, fun s h => ?_⟩ <;>
      simp [renderSecrets, objFields, optField, h, List.mem_append]

/-- Witness for `renderKeyNames` at a concrete activity. -/
theorem renderKeyNames_witness :
    ("type", renderActivityType ActivityType.Playing) ∈
      objFields (renderActivity (Activity.new.setActivityType ActivityType.Playing)) :=
  ((renderKeyNames.1 (Activity.new.setActivityType ActivityType.Playing)).1)
    ActivityType.Playing rfl

/-- C6: `Party::size` stores the ordered pair `(current_size, max_size)`
with the current size first, and a set size renders as the two-element
array `[current, max]`; in particular `Party::new().size(3, 10)` renders
with `"size": [3, 10]`. -/
theorem partySizeOrder (p : Party) (current_size max_size : Int) :
    (p.setSize current_size max_size).size = some (current_size, max_size) ∧
    ("size", Json.arr [Json.int current_size, Json.int max_size]) ∈
      objFields (renderParty (p.setSize current_size max_size)) ∧
    renderParty (Party.new.setSize 3 10) =
      Json.obj [("size", Json.arr [Json.int 3, Json.int 10])] := by
  refine ⟨rfl, ?_, rfl⟩
  simp [renderParty, Party.setSize, objFields, optField, List.mem_append]

/-- C7: each of the seven plain `Activity` setters sets exactly its own
field to the given value and leaves every other field equal to its value
in the input; every setter is a total function (no failure, no
validation). -/
theorem settersFrame (a : Activity) (s d : String) (ts : Timestamps) (p : Party)
    (x : Assets) (sec : Secrets) (ty : ActivityType) :
    ((a.setState s).state = some s ∧ (a.setState s).details = a.details ∧
     (a.setState s).timestamps = a.timestamps ∧ (a.setState s).party = a.party ∧
     (a.setState s).assets = a.assets ∧ (a.setState s).secrets = a.secrets ∧
     (a.setState s).buttons = a.buttons ∧
     (a.setState s).activity_type = a.activity_type) ∧
    ((a.setDetails d).details = some d ∧ (a.setDetails d).state = a.state ∧
     (a.setDetails d).timestamps = a.timestamps ∧ (a.setDetails d).party = a.party ∧
     (a.setDetails d).assets = a.assets ∧ (a.setDetails d).secrets = a.secrets ∧
     (a.setDetails d).buttons = a.buttons ∧
     (a.setDetails d).activity_type = a.activity_type) ∧
    ((a.setTimestamps ts).timestamps = some ts ∧ (a.setTimestamps ts).state = a.state ∧
     (a.setTimestamps ts).details = a.details ∧ (a.setTimestamps ts).party = a.party ∧
     (a.setTimestamps ts).assets = a.assets ∧ (a.setTimestamps ts).secrets = a.secrets ∧
     (a.setTimestamps ts).buttons = a.buttons ∧
     (a.setTimestamps ts).activity_type = a.activity_type) ∧
    ((a.setParty p).party = some p ∧ (a.setParty p).state = a.state ∧
     (a.setParty p).details = a.details ∧ (a.setParty p).timestamps = a.timestamps ∧
     (a.setParty p).assets = a.assets ∧ (a.setParty p).secrets = a.secrets ∧
     (a.setParty p).buttons = a.buttons ∧
     (a.setParty p).activity_type = a.activity_type) ∧
    ((a.setAssets x).assets = some x ∧ (a.setAssets x).state = a.state ∧
     (a.setAssets x).details = a.details ∧ (a.setAssets x).timestamps = a.timestamps ∧
     (a.setAssets x).party = a.party ∧ (a.setAssets x).secrets = a.secrets ∧
     (a.setAssets x).buttons = a.buttons ∧
     (a.setAssets x).activity_type = a.activity_type) ∧
    ((a.setSecrets sec).secrets = some sec ∧ (a.setSecrets sec).state = a.state ∧
     (a.setSecrets sec).details = a.details ∧
     (a.setSecrets sec).timestamps = a.timestamps ∧
     (a.setSecrets sec).party = a.party ∧ (a.setSecrets sec).assets = a.assets ∧
     (a.setSecrets sec).buttons = a.buttons ∧
     (a.setSecrets sec).activity_type = a.activity_type) ∧
    ((a.setActivityType ty).activity_type = some ty ∧
     (a.setActivityType ty).state = a.state ∧
     (a.setActivityType ty).details = a.details ∧
     (a.setActivityType ty).timestamps = a.timestamps ∧
     (a.setActivityType ty).party = a.party ∧ (a.setActivityType ty).assets = a.assets ∧
     (a.setActivityType ty).secrets = a.secrets ∧
     (a.setActivityType ty).buttons = a.buttons) := by
  repeat' apply And.intro
  all_goals rfl

/-- C8: the buttons setter applied to a non-empty sequence stores that
sequence verbatim (same elements, same order), and rendering emits it
under `"buttons"` as a list of the same length in the same order, each
element an object carrying both `label` and `url`. -/
theorem buttonsNonEmptySet (a : Activity) (bs : List Button) (h : bs ≠ []) :
    (a.setButtons bs).buttons = some bs ∧
    ("buttons", Json.arr (bs.map renderButton)) ∈
      objFields (renderActivity (a.setButtons bs)) ∧
    (bs.map renderButton).length = bs.length ∧
    ∀ b ∈ bs, renderButton b =
      Json.obj [("label", Json.str b.label), ("url", Json.str b.url)] := by
  have hne : bs.isEmpty = false := by
    cases bs with
    | nil => exact absurd rfl h
    | cons c cs => rfl
  refine ⟨?_, ?_, by simp, fun b _ => rfl⟩
  · simp [Activity.setButtons, hne]
  · simp [Activity.setButtons, hne, renderActivity, objFields, optField, List.mem_append]

/-- Witness for `buttonsNonEmptySet` at a concrete non-empty input. -/
theorem buttonsNonEmptySet_witness :
    (Activity.new.setButtons [sampleButton]).buttons = some [sampleButton] ∧
    ("buttons", Json.arr ([sampleButton].map renderButton)) ∈
      objFields (renderActivity (Activity.new.setButtons [sampleButton])) ∧
    ([sampleButton].map renderButton).length = [sampleButton].length ∧
    ∀ b ∈ [sampleButton], renderButton b =
      Json.obj [("label", Json.str b.label), ("url", Json.str b.url)] :=
  buttonsNonEmptySet Activity.new [sampleButton] (by simp)

/-- C9: rendering is a deterministic pure function of the `Activity`
value — two renders of the same value are always equal. -/
theorem renderDeterministic (a : Activity) (r₁ r₂ : Json)
    (h₁ : renderActivity a = r₁) (h₂ : renderActivity a = r₂) : r₁ = r₂ :=
  h₁.symm.trans h₂

/-- Witness for `renderDeterministic` at a concrete activity. -/
theorem renderDeterministic_witness : (Json.obj [] : Json) = Json.obj [] :=
  renderDeterministic Activity.new (Json.obj []) (Json.obj []) rfl rfl
